import Mathlib

/-!
Verification of the MartyPC bus/device dispatch core (`core/src/bus.rs`) and the
8088 CPU stack routines (`core/src/cpu_808x/stack.rs`).

The Rust source is shallowly embedded: the flat memory and flag arrays become
total functions `Nat → Nat` restricted by the explicit bounds checks the source
performs, `HashMap`s become association lists, machine integers become `Nat`
with explicit wrapping where the source wraps, fallible operations return
`Except`/`Option` (an `Option.none` models a Rust panic, i.e. a failed
`assert_eq!`, a failed `unwrap`, or an out-of-bounds slice index), and the
`f64` microsecond arithmetic is modelled over `ℚ` (exact-real semantics of the
floating-point expressions). External collaborator devices (video cards, PIT,
PIC, DMA, PPI, FDC, HDC, serial, mouse) are not part of the analysed source;
following the spec's device collaborator contract, their behavior is passed in
as opaque state-transition functions in an `Ext` record, so every theorem holds
for every possible device behavior.
-/

namespace MartyPC

/-! ## Constants from `bus.rs` -/

def NO_IO_BYTE : Nat := 0xFF
def OPEN_BUS_BYTE : Nat := 0xFF
def ADDRESS_SPACE : Nat := 0x100000
def DEFAULT_WAIT_STATES : Nat := 0
def MMIO_MAP_SIZE : Nat := 0x2000
def MMIO_MAP_SHIFT : Nat := 13
def MMIO_MAP_LEN : Nat := ADDRESS_SPACE >>> MMIO_MAP_SHIFT
def MEM_ROM_BIT : Nat := 0b10000000
def MEM_RET_BIT : Nat := 0b01000000
def MEM_BPE_BIT : Nat := 0b00100000
def MEM_BPA_BIT : Nat := 0b00010000
def MEM_CP_BIT : Nat := 0b00001000
def MEM_MMIO_BIT : Nat := 0b00000100
def TIMING_TABLE_LEN : Nat := 512

/-! ## Clock factor and the timing table -/

/-- `ClockFactor` from `bus.rs`: the `n` is a `u8` in the source. -/
inductive ClockFactor where
  | Divisor (n : Nat)
  | Multiplier (n : Nat)
deriving DecidableEq

/-- `TimingTableEntry` from `bus.rs`; the `us` field is `f64` in the source and
is modelled over `ℚ`. -/
structure TimingTableEntry where
  sys_ticks : Nat
  us : ℚ

/-- `BusInterface::update_timing_table` from `bus.rs`. The source fills a
512-entry array, one entry per cycle count `0..TIMING_TABLE_LEN`; the loop body
for index `cycles` is embedded as a function of `cycles`. -/
def update_timing_table (clock_factor : ClockFactor) (cpu_crystal : ℚ)
    (cycles : Nat) : TimingTableEntry :=
  let sys_ticks :=
    match clock_factor with
    | .Divisor n => (cycles + n - 1) / n
    | .Multiplier n => cycles * n
  let mhz : ℚ :=
    match clock_factor with
    | .Divisor n => cpu_crystal / (n : ℚ)
    | .Multiplier n => cpu_crystal * (n : ℚ)
  { sys_ticks := sys_ticks, us := 1 / mhz * (cycles : ℚ) }

/-- `BusInterface::cpu_cycles_to_system_ticks` from `bus.rs` (the factor is
`self.cpu_factor` in the source). -/
def cpu_cycles_to_system_ticks (factor : ClockFactor) (cycles : Nat) : Nat :=
  match factor with
  | .Divisor n => cycles * n
  | .Multiplier n => cycles / n

/-- `BusInterface::system_ticks_to_cpu_cycles` from `bus.rs`: divisor
conversions round the dividend upwards. -/
def system_ticks_to_cpu_cycles (factor : ClockFactor) (ticks : Nat) : Nat :=
  match factor with
  | .Divisor n => (ticks + n - 1) / n
  | .Multiplier n => ticks * n

/-! ## Arithmetic helper lemmas -/

/-- `(t + n - 1) / n` is bounded below by the true ceiling: `n` times it
covers `t`. -/
theorem ceil_div_bounds (t n : Nat) (hn : 0 < n) :
    t ≤ n * ((t + n - 1) / n) ∧ n * ((t + n - 1) / n) < t + n := by
  have h1 := Nat.div_add_mod (t + n - 1) n
  have h2 : (t + n - 1) % n < n := Nat.mod_lt _ hn
  generalize (t + n - 1) / n = q at h1 ⊢
  generalize hr : (t + n - 1) % n = r at h1 h2
  generalize hp : n * q = p at h1 ⊢
  omega

/-! ## Bus data model -/

/-- `MemError` from `memerror.rs` (file not in scope; the two variants used by
`bus.rs` are modelled). -/
inductive MemError where
  | ReadOutOfBoundsError
  | MmioError
deriving DecidableEq

/-- `VideoCardId` from `device_traits/videocard.rs` (not in scope). Modelled
from the spec: a video-card identity is `(index, type)`, globally unique among
installed cards. -/
structure VideoCardId where
  idx : Nat
  card_type : Nat
deriving DecidableEq

/-- `MmioDeviceType` from `bus.rs`. -/
inductive MmioDeviceType where
  | None
  | Memory
  | Video (vid : VideoCardId)
  | Cga
  | Ega
  | Vga
  | Rom
deriving DecidableEq

/-- `VideoCardDispatch` from `device_traits/videocard.rs` (not in scope).
Modelled from the spec: a closed tagged variant over the supported adapter
kinds. Each adapter's internal state is opaque (`Nat`); its behavior lives in
the `Ext` record. -/
inductive VideoCardDispatch where
  | None
  | Mda (st : Nat)
  | Cga (st : Nat)
  | Ega (st : Nat)
  | Vga (st : Nat)
deriving DecidableEq

/-- `MemRangeDescriptor` from `bus.rs`. -/
structure MemRangeDescriptor where
  address : Nat
  size : Nat
  cycle_cost : Nat
  read_only : Bool
deriving DecidableEq

/-- `IoDeviceType` from `bus.rs`. -/
inductive IoDeviceType where
  | Ppi
  | Pit
  | DmaPrimary
  | DmaSecondary
  | PicPrimary
  | PicSecondary
  | Serial
  | FloppyController
  | HardDiskController
  | Mouse
  | Video (vid : VideoCardId)
deriving DecidableEq

/-- `HashMap::get` / association-list lookup. -/
def lookupList {α β : Type} [DecidableEq α] : List (α × β) → α → Option β
  | [], _ => none
  | (k, v) :: rest, key => if k = key then some v else lookupList rest key

/-- `HashMap::get_mut` followed by writing the entry back: in-place update of
the first matching key. -/
def updateList {α β : Type} [DecidableEq α] :
    List (α × β) → α → β → List (α × β)
  | [], _, _ => []
  | (k, v) :: rest, key, nv =>
      if k = key then (k, nv) :: rest else (k, v) :: updateList rest key nv

/-- The subset of `BusInterface` state from `bus.rs` that the memory and I/O
dispatch paths touch. `memory` and `memory_mask` are the two
`ADDRESS_SPACE`-long byte vectors, modelled as functions (every access in the
embedded operations is guarded by the same bounds checks the source performs).
Device states are opaque `Nat`s wrapped in `Option` exactly as in the source;
`cycles_to_ticks` is the 256-entry lookup table. -/
structure Bus where
  cpu_factor : ClockFactor
  conventional_size : Nat
  memory : Nat → Nat
  memory_mask : Nat → Nat
  mmio_map : List (MemRangeDescriptor × MmioDeviceType)
  mmio_map_fast : Nat → MmioDeviceType
  first_map : Nat
  last_map : Nat
  io_map : List (Nat × IoDeviceType)
  ppi : Option Nat
  pit : Option Nat
  dma1 : Option Nat
  dma2 : Option Nat
  pic1 : Option Nat
  pic2 : Option Nat
  serial : Option Nat
  fdc : Option Nat
  hdc : Option Nat
  mouse : Option Nat
  videocards : List (VideoCardId × VideoCardDispatch)
  cycles_to_ticks : Nat → Nat

/-- The `MemoryMappedDevice` plus `IoDevice` capability of one video-card kind
(MDA/CGA/EGA/VGA implementations are not in scope). Modelled from the spec's
device collaborator contract: each method threads the opaque card state and
returns data/wait values. -/
structure CardFns where
  get_read_wait : Nat → Nat → Nat → Nat × Nat
  get_write_wait : Nat → Nat → Nat → Nat × Nat
  mmio_read_u8 : Nat → Nat → Nat → Nat × Nat × Nat
  mmio_read_u16 : Nat → Nat → Nat → Nat × Nat × Nat
  mmio_peek_u8 : Nat → Nat → Nat
  mmio_write_u8 : Nat → Nat → Nat → Nat → Nat × Nat
  io_read_u8 : Nat → Nat → Nat → Nat × Nat
  io_write_u8 : Nat → Nat → Nat → Nat → Nat

/-- External collaborator behavior: one `CardFns` per video-card kind, and the
`IoDevice` read/write methods of the owned peripherals (PPI, PIT, DMA, PIC,
FDC, HDC, serial). Reads thread the device state; writes additionally receive
the bus, mirroring the `write_u8(port, data, Some(self), delta)` calls where a
device is moved out of its slot and handed the rest of the bus. -/
structure Ext where
  mda : CardFns
  cga : CardFns
  ega : CardFns
  vga : CardFns
  ppiRead : Nat → Nat → Nat × Nat
  pitRead : Nat → Nat → Nat → Nat × Nat
  dmaRead : Nat → Nat → Nat × Nat
  picRead : Nat → Nat → Nat × Nat
  fdcRead : Nat → Nat → Nat × Nat
  hdcRead : Nat → Nat → Nat × Nat
  serialRead : Nat → Nat → Nat × Nat
  ppiWrite : Nat → Nat → Nat → Bus → Nat × Bus
  pitWrite : Nat → Nat → Nat → Nat → Bus → Nat × Bus
  dmaWrite : Nat → Nat → Nat → Bus → Nat × Bus
  picWrite : Nat → Nat → Nat → Bus → Nat × Bus
  fdcWrite : Nat → Nat → Nat → Bus → Nat × Bus
  hdcWrite : Nat → Nat → Nat → Bus → Nat × Bus
  serialWrite : Nat → Nat → Nat → Nat

/-- Store an updated card dispatch back into the registry (the write-back half
of `videocards.get_mut`). -/
def setCard (b : Bus) (vid : VideoCardId) (c : VideoCardDispatch) : Bus :=
  { b with videocards := updateList b.videocards vid c }

/-- `BusInterface::register_map` from `bus.rs`. The source first widens
`first_map`/`last_map`, then sets `MEM_MMIO_BIT` over the descriptor's range,
then `assert_eq!(size % MMIO_MAP_SIZE, 0)`, then fills the coarse fast map and
appends to the authoritative list. A Rust panic (the assertion, or the
`memory_mask` slice index going past `ADDRESS_SPACE`) is modelled as `none`. -/
def register_map (b : Bus) (device : MmioDeviceType)
    (mem_descriptor : MemRangeDescriptor) : Option Bus :=
  let first' :=
    if mem_descriptor.address < b.first_map then mem_descriptor.address
    else b.first_map
  let last' :=
    if mem_descriptor.address + mem_descriptor.size > b.last_map then
      mem_descriptor.address + mem_descriptor.size
    else b.last_map
  if mem_descriptor.address + mem_descriptor.size > ADDRESS_SPACE then none
  else
    let mask' := fun i =>
      if mem_descriptor.address ≤ i ∧
          i < mem_descriptor.address + mem_descriptor.size then
        b.memory_mask i ||| MEM_MMIO_BIT
      else b.memory_mask i
    if mem_descriptor.size % MMIO_MAP_SIZE ≠ 0 then none
    else
      let map_segs := mem_descriptor.size / MMIO_MAP_SIZE
      let fast' := fun j =>
        if mem_descriptor.address >>> MMIO_MAP_SHIFT ≤ j ∧
            j < mem_descriptor.address >>> MMIO_MAP_SHIFT + map_segs then
          device
        else b.mmio_map_fast j
      some { b with
        first_map := first',
        last_map := last',
        memory_mask := mask',
        mmio_map_fast := fast',
        mmio_map := b.mmio_map ++ [(mem_descriptor, device)] }

/-- `BusInterface::get_read_wait` from `bus.rs`: unresolved MMIO buckets fall
back to `Ok(DEFAULT_WAIT_STATES)` ("We didn't match any mmio devices, return
raw memory"); device waits are converted back to CPU cycles. -/
def get_read_wait (ext : Ext) (b : Bus) (address cycles : Nat) :
    Bus × Except MemError Nat :=
  if address < ADDRESS_SPACE then
    if b.memory_mask address &&& MEM_MMIO_BIT = 0 then
      (b, .ok DEFAULT_WAIT_STATES)
    else
      let system_ticks := cpu_cycles_to_system_ticks b.cpu_factor cycles
      match b.mmio_map_fast (address >>> MMIO_MAP_SHIFT) with
      | .Video vid =>
        match lookupList b.videocards vid with
        | some (.Mda st) =>
            let (st', syswait) := ext.mda.get_read_wait st address system_ticks
            (setCard b vid (.Mda st'),
             .ok (system_ticks_to_cpu_cycles b.cpu_factor syswait))
        | some (.Cga st) =>
            let (st', syswait) := ext.cga.get_read_wait st address system_ticks
            (setCard b vid (.Cga st'),
             .ok (system_ticks_to_cpu_cycles b.cpu_factor syswait))
        | some (.Ega st) =>
            let (st', syswait) := ext.ega.get_read_wait st address system_ticks
            (setCard b vid (.Ega st'),
             .ok (system_ticks_to_cpu_cycles b.cpu_factor syswait))
        | some (.Vga st) =>
            let (st', syswait) := ext.vga.get_read_wait st address system_ticks
            (setCard b vid (.Vga st'),
             .ok (system_ticks_to_cpu_cycles b.cpu_factor syswait))
        | _ => (b, .ok DEFAULT_WAIT_STATES)
      | _ => (b, .ok DEFAULT_WAIT_STATES)
  else (b, .error .ReadOutOfBoundsError)

/-- `BusInterface::get_write_wait` from `bus.rs` (same fallback structure as
`get_read_wait`). -/
def get_write_wait (ext : Ext) (b : Bus) (address cycles : Nat) :
    Bus × Except MemError Nat :=
  if address < ADDRESS_SPACE then
    if b.memory_mask address &&& MEM_MMIO_BIT = 0 then
      (b, .ok DEFAULT_WAIT_STATES)
    else
      let system_ticks := cpu_cycles_to_system_ticks b.cpu_factor cycles
      match b.mmio_map_fast (address >>> MMIO_MAP_SHIFT) with
      | .Video vid =>
        match lookupList b.videocards vid with
        | some (.Mda st) =>
            let (st', syswait) := ext.mda.get_write_wait st address system_ticks
            (setCard b vid (.Mda st'),
             .ok (system_ticks_to_cpu_cycles b.cpu_factor syswait))
        | some (.Cga st) =>
            let (st', syswait) := ext.cga.get_write_wait st address system_ticks
            (setCard b vid (.Cga st'),
             .ok (system_ticks_to_cpu_cycles b.cpu_factor syswait))
        | some (.Ega st) =>
            let (st', syswait) := ext.ega.get_write_wait st address system_ticks
            (setCard b vid (.Ega st'),
             .ok (system_ticks_to_cpu_cycles b.cpu_factor syswait))
        | some (.Vga st) =>
            let (st', syswait) := ext.vga.get_write_wait st address system_ticks
            (setCard b vid (.Vga st'),
             .ok (system_ticks_to_cpu_cycles b.cpu_factor syswait))
        | _ => (b, .ok DEFAULT_WAIT_STATES)
      | _ => (b, .ok DEFAULT_WAIT_STATES)
  else (b, .error .ReadOutOfBoundsError)

/-- `BusInterface::read_u8` from `bus.rs`. Raw memory reads return
`Ok((byte, 0))`; an MMIO-flagged address dispatches on the fast-map bucket and
every fall-through (bucket not `Video`, card absent, or `VideoCardDispatch::None`)
reaches `return Err(MemError::MmioError)`. -/
def read_u8 (ext : Ext) (b : Bus) (address cycles : Nat) :
    Bus × Except MemError (Nat × Nat) :=
  if address < ADDRESS_SPACE then
    if b.memory_mask address &&& MEM_MMIO_BIT = 0 then
      (b, .ok (b.memory address, 0))
    else
      let system_ticks := cpu_cycles_to_system_ticks b.cpu_factor cycles
      match b.mmio_map_fast (address >>> MMIO_MAP_SHIFT) with
      | .Video vid =>
        match lookupList b.videocards vid with
        | some (.Mda st) =>
            let (st', data, _waits) := ext.mda.mmio_read_u8 st address system_ticks
            (setCard b vid (.Mda st'), .ok (data, 0))
        | some (.Cga st) =>
            let (st', data, _waits) := ext.cga.mmio_read_u8 st address system_ticks
            (setCard b vid (.Cga st'), .ok (data, 0))
        | some (.Ega st) =>
            let (st', data, _waits) := ext.ega.mmio_read_u8 st address system_ticks
            (setCard b vid (.Ega st'), .ok (data, 0))
        | some (.Vga st) =>
            let (st', data, _waits) := ext.vga.mmio_read_u8 st address system_ticks
            (setCard b vid (.Vga st'), .ok (data, 0))
        | _ => (b, .error .MmioError)
      | _ => (b, .error .MmioError)
  else (b, .error .ReadOutOfBoundsError)

/-- `BusInterface::peek_u8` from `bus.rs`: side-effect free (`&self`). -/
def peek_u8 (ext : Ext) (b : Bus) (address : Nat) : Except MemError Nat :=
  if address < ADDRESS_SPACE then
    if b.memory_mask address &&& MEM_MMIO_BIT = 0 then .ok (b.memory address)
    else
      match b.mmio_map_fast (address >>> MMIO_MAP_SHIFT) with
      | .Video vid =>
        match lookupList b.videocards vid with
        | some (.Mda st) => .ok (ext.mda.mmio_peek_u8 st address)
        | some (.Cga st) => .ok (ext.cga.mmio_peek_u8 st address)
        | some (.Ega st) => .ok (ext.ega.mmio_peek_u8 st address)
        | some (.Vga st) => .ok (ext.vga.mmio_peek_u8 st address)
        | _ => .error .MmioError
      | _ => .error .MmioError
  else .error .ReadOutOfBoundsError

/-- `BusInterface::read_u16` from `bus.rs`. The bounds check is
`address < memory.len() - 1`; in the card branches the system-tick count comes
from the 256-entry `cycles_to_ticks` table (a `cycles ≥ 256` index would panic
in Rust; theorems over this path carry that bound). MDA/CGA convert the device
wait back to CPU cycles, EGA/VGA return wait `0`. -/
def read_u16 (ext : Ext) (b : Bus) (address cycles : Nat) :
    Bus × Except MemError (Nat × Nat) :=
  if address < ADDRESS_SPACE - 1 then
    if b.memory_mask address &&& MEM_MMIO_BIT = 0 then
      (b, .ok (b.memory address ||| b.memory (address + 1) <<< 8,
               DEFAULT_WAIT_STATES))
    else
      match b.mmio_map_fast (address >>> MMIO_MAP_SHIFT) with
      | .Video vid =>
        match lookupList b.videocards vid with
        | some (.Mda st) =>
            let system_ticks := b.cycles_to_ticks cycles
            let (st', data, syswait) := ext.mda.mmio_read_u16 st address system_ticks
            (setCard b vid (.Mda st'),
             .ok (data, system_ticks_to_cpu_cycles b.cpu_factor syswait))
        | some (.Cga st) =>
            let system_ticks := b.cycles_to_ticks cycles
            let (st', data, syswait) := ext.cga.mmio_read_u16 st address system_ticks
            (setCard b vid (.Cga st'),
             .ok (data, system_ticks_to_cpu_cycles b.cpu_factor syswait))
        | some (.Ega st) =>
            let system_ticks := b.cycles_to_ticks cycles
            let (st', data, _syswait) := ext.ega.mmio_read_u16 st address system_ticks
            (setCard b vid (.Ega st'), .ok (data, 0))
        | some (.Vga st) =>
            let system_ticks := b.cycles_to_ticks cycles
            let (st', data, _syswait) := ext.vga.mmio_read_u16 st address system_ticks
            (setCard b vid (.Vga st'), .ok (data, 0))
        | _ => (b, .error .MmioError)
      | _ => (b, .error .MmioError)
  else (b, .error .ReadOutOfBoundsError)

/-- `BusInterface::write_u8` from `bus.rs`. A byte with neither `MEM_MMIO_BIT`
nor `MEM_ROM_BIT` is written only below `conventional_size`; everything else
dispatches on the bucket, and every branch of the dispatch returns `Ok` (the
wait is `Ok(0)` for MDA/CGA, `Ok(DEFAULT_WAIT_STATES)` otherwise). -/
def write_u8 (ext : Ext) (b : Bus) (address data cycles : Nat) :
    Bus × Except MemError Nat :=
  if address < ADDRESS_SPACE then
    if b.memory_mask address &&& (MEM_MMIO_BIT ||| MEM_ROM_BIT) = 0 then
      if address < b.conventional_size then
        ({ b with memory := fun i => if i = address then data else b.memory i },
         .ok DEFAULT_WAIT_STATES)
      else (b, .ok DEFAULT_WAIT_STATES)
    else
      match b.mmio_map_fast (address >>> MMIO_MAP_SHIFT) with
      | .Video vid =>
        match lookupList b.videocards vid with
        | some (.Mda st) =>
            let system_ticks := b.cycles_to_ticks cycles
            let (st', _syswait) := ext.mda.mmio_write_u8 st address data system_ticks
            (setCard b vid (.Mda st'), .ok 0)
        | some (.Cga st) =>
            let system_ticks := b.cycles_to_ticks cycles
            let (st', _syswait) := ext.cga.mmio_write_u8 st address data system_ticks
            (setCard b vid (.Cga st'), .ok 0)
        | some (.Ega st) =>
            let system_ticks := b.cycles_to_ticks cycles
            let (st', _syswait) := ext.ega.mmio_write_u8 st address data system_ticks
            (setCard b vid (.Ega st'), .ok DEFAULT_WAIT_STATES)
        | some (.Vga st) =>
            let system_ticks := b.cycles_to_ticks cycles
            let (st', _syswait) := ext.vga.mmio_write_u8 st address data system_ticks
            (setCard b vid (.Vga st'), .ok DEFAULT_WAIT_STATES)
        | _ => (b, .ok DEFAULT_WAIT_STATES)
      | _ => (b, .ok DEFAULT_WAIT_STATES)
  else (b, .error .ReadOutOfBoundsError)

/-- `BusInterface::write_u16` from `bus.rs`. The raw path writes both bytes
below `conventional_size - 1`, only the low byte at `conventional_size - 1`,
and nothing at or past `conventional_size`; MMIO dispatch issues two byte
writes to the card and the fall-through returns `Ok(0)`. -/
def write_u16 (ext : Ext) (b : Bus) (address data cycles : Nat) :
    Bus × Except MemError Nat :=
  if address < ADDRESS_SPACE - 1 then
    if b.memory_mask address &&& (MEM_MMIO_BIT ||| MEM_ROM_BIT) = 0 then
      if address < b.conventional_size - 1 then
        ({ b with memory := fun i =>
             if i = address then data &&& 0xFF
             else if i = address + 1 then data >>> 8
             else b.memory i },
         .ok DEFAULT_WAIT_STATES)
      else if address < b.conventional_size then
        ({ b with memory := fun i =>
             if i = address then data &&& 0xFF else b.memory i },
         .ok DEFAULT_WAIT_STATES)
      else (b, .ok DEFAULT_WAIT_STATES)
    else
      match b.mmio_map_fast (address >>> MMIO_MAP_SHIFT) with
      | .Video vid =>
        match lookupList b.videocards vid with
        | some (.Mda st) =>
            let system_ticks := b.cycles_to_ticks cycles
            let (st1, w1) := ext.mda.mmio_write_u8 st address (data &&& 0xFF) system_ticks
            let (st2, w2) := ext.mda.mmio_write_u8 st1 (address + 1) (data >>> 8) 0
            (setCard b vid (.Mda st2),
             .ok (system_ticks_to_cpu_cycles b.cpu_factor (w1 + w2)))
        | some (.Cga st) =>
            let system_ticks := b.cycles_to_ticks cycles
            let (st1, w1) := ext.cga.mmio_write_u8 st address (data &&& 0xFF) system_ticks
            let (st2, w2) := ext.cga.mmio_write_u8 st1 (address + 1) (data >>> 8) 0
            (setCard b vid (.Cga st2),
             .ok (system_ticks_to_cpu_cycles b.cpu_factor (w1 + w2)))
        | some (.Ega st) =>
            let system_ticks := b.cycles_to_ticks cycles
            let (st1, _w1) := ext.ega.mmio_write_u8 st address (data &&& 0xFF) system_ticks
            let (st2, _w2) := ext.ega.mmio_write_u8 st1 (address + 1) (data >>> 8) 0
            (setCard b vid (.Ega st2), .ok 0)
        | some (.Vga st) =>
            let system_ticks := b.cycles_to_ticks cycles
            let (st1, _w1) := ext.vga.mmio_write_u8 st address (data &&& 0xFF) system_ticks
            let (st2, _w2) := ext.vga.mmio_write_u8 st1 (address + 1) (data >>> 8) 0
            (setCard b vid (.Vga st2), .ok 0)
        | _ => (b, .ok 0)
      | _ => (b, .ok 0)
  else (b, .error .ReadOutOfBoundsError)

/-- `BusInterface::io_read_u8` from `bus.rs`. An unmapped port returns
`NO_IO_BYTE` (0xFF) untouched; a mapped port dispatches on the device tag.
`none` models the `unwrap()` panics on the always-present PIT/DMA1/PIC1. The
source passes `Microseconds(0.0)` (`nul_delta`) to most devices and
`SystemTicks(sys_ticks)` to the PIT and MDA/CGA cards; the constant nul delta
is elided from the modelled device signatures, and EGA/VGA receive `0`. -/
def io_read_u8 (ext : Ext) (b : Bus) (port cycles : Nat) :
    Option (Bus × Nat) :=
  let sys_ticks :=
    match b.cpu_factor with
    | .Divisor d => d * cycles
    | .Multiplier m => cycles / m
  match lookupList b.io_map port with
  | none => some (b, NO_IO_BYTE)
  | some device_id =>
    match device_id with
    | .Ppi =>
      match b.ppi with
      | some st =>
          let (st', d) := ext.ppiRead st port
          some ({ b with ppi := some st' }, d)
      | none => some (b, NO_IO_BYTE)
    | .Pit =>
      match b.pit with
      | some st =>
          let (st', d) := ext.pitRead st port sys_ticks
          some ({ b with pit := some st' }, d)
      | none => none
    | .DmaPrimary =>
      match b.dma1 with
      | some st =>
          let (st', d) := ext.dmaRead st port
          some ({ b with dma1 := some st' }, d)
      | none => none
    | .DmaSecondary =>
      match b.dma2 with
      | some st =>
          let (st', d) := ext.dmaRead st port
          some ({ b with dma2 := some st' }, d)
      | none => some (b, NO_IO_BYTE)
    | .PicPrimary =>
      match b.pic1 with
      | some st =>
          let (st', d) := ext.picRead st port
          some ({ b with pic1 := some st' }, d)
      | none => none
    | .PicSecondary =>
      match b.pic2 with
      | some st =>
          let (st', d) := ext.picRead st port
          some ({ b with pic2 := some st' }, d)
      | none => some (b, NO_IO_BYTE)
    | .FloppyController =>
      match b.fdc with
      | some st =>
          let (st', d) := ext.fdcRead st port
          some ({ b with fdc := some st' }, d)
      | none => some (b, NO_IO_BYTE)
    | .HardDiskController =>
      match b.hdc with
      | some st =>
          let (st', d) := ext.hdcRead st port
          some ({ b with hdc := some st' }, d)
      | none => some (b, NO_IO_BYTE)
    | .Serial =>
      match b.serial with
      | some st =>
          let (st', d) := ext.serialRead st port
          some ({ b with serial := some st' }, d)
      | none => some (b, NO_IO_BYTE)
    | .Video vid =>
      match lookupList b.videocards vid with
      | some (.Mda st) =>
          let (st', d) := ext.mda.io_read_u8 st port sys_ticks
          some (setCard b vid (.Mda st'), d)
      | some (.Cga st) =>
          let (st', d) := ext.cga.io_read_u8 st port sys_ticks
          some (setCard b vid (.Cga st'), d)
      | some (.Ega st) =>
          let (st', d) := ext.ega.io_read_u8 st port 0
          some (setCard b vid (.Ega st'), d)
      | some (.Vga st) =>
          let (st', d) := ext.vga.io_read_u8 st port 0
          some (setCard b vid (.Vga st'), d)
      | some .None => some (b, NO_IO_BYTE)
      | none => some (b, NO_IO_BYTE)
    | .Mouse => some (b, NO_IO_BYTE)

/-- `BusInterface::io_write_u8` from `bus.rs`. An unmapped port is a no-op on
the whole bus. A mapped device is moved out of its slot (`take()`), called
with a mutable reference to the remaining bus, and restored — the
ownership-relocation pattern. The serial controller and video cards are called
without the bus (`None`). -/
def io_write_u8 (ext : Ext) (b : Bus) (port data cycles : Nat) : Bus :=
  let sys_ticks :=
    match b.cpu_factor with
    | .Divisor n => cycles * n
    | .Multiplier n => cycles / n
  match lookupList b.io_map port with
  | none => b
  | some device_id =>
    match device_id with
    | .Ppi =>
      match b.ppi with
      | some st =>
          let (st', b2) := ext.ppiWrite st port data { b with ppi := none }
          { b2 with ppi := some st' }
      | none => b
    | .Pit =>
      match b.pit with
      | some st =>
          let (st', b2) := ext.pitWrite st port data sys_ticks { b with pit := none }
          { b2 with pit := some st' }
      | none => b
    | .DmaPrimary =>
      match b.dma1 with
      | some st =>
          let (st', b2) := ext.dmaWrite st port data { b with dma1 := none }
          { b2 with dma1 := some st' }
      | none => b
    | .DmaSecondary =>
      match b.dma2 with
      | some st =>
          let (st', b2) := ext.dmaWrite st port data { b with dma2 := none }
          { b2 with dma2 := some st' }
      | none => b
    | .PicPrimary =>
      match b.pic1 with
      | some st =>
          let (st', b2) := ext.picWrite st port data { b with pic1 := none }
          { b2 with pic1 := some st' }
      | none => b
    | .PicSecondary =>
      match b.pic2 with
      | some st =>
          let (st', b2) := ext.picWrite st port data { b with pic2 := none }
          { b2 with pic2 := some st' }
      | none => b
    | .FloppyController =>
      match b.fdc with
      | some st =>
          let (st', b2) := ext.fdcWrite st port data { b with fdc := none }
          { b2 with fdc := some st' }
      | none => b
    | .HardDiskController =>
      match b.hdc with
      | some st =>
          let (st', b2) := ext.hdcWrite st port data { b with hdc := none }
          { b2 with hdc := some st' }
      | none => b
    | .Serial =>
      match b.serial with
      | some st => { b with serial := some (ext.serialWrite st port data) }
      | none => b
    | .Video vid =>
      match lookupList b.videocards vid with
      | some (.Mda st) => setCard b vid (.Mda (ext.mda.io_write_u8 st port data sys_ticks))
      | some (.Cga st) => setCard b vid (.Cga (ext.cga.io_write_u8 st port data sys_ticks))
      | some (.Ega st) => setCard b vid (.Ega (ext.ega.io_write_u8 st port data 0))
      | some (.Vga st) => setCard b vid (.Vga (ext.vga.io_write_u8 st port data 0))
      | some .None => b
      | none => b
    | .Mouse => b

/-! ## CPU stack routines (`cpu_808x/stack.rs`) -/

/-- `Segment` from `cpu_808x` (declaration not in scope; the stack routines
only use `Segment::SS`). -/
inductive Segment where
  | ES
  | CS
  | SS
  | DS
deriving DecidableEq

/-- `ReadWriteFlag` from `cpu_808x` (declaration not in scope). -/
inductive ReadWriteFlag where
  | Normal
  | RNI
deriving DecidableEq

/-- `Register16` from `cpu_808x` (declaration not in scope): the thirteen
registers `push_register16` handles. -/
inductive Register16 where
  | AX
  | BX
  | CX
  | DX
  | SP
  | BP
  | SI
  | DI
  | CS
  | DS
  | SS
  | ES
  | IP
deriving DecidableEq

/-- Modelled from the spec: `biu_read_u16`/`biu_write_u8`/`biu_write_u16` are
the CPU's bus read/write primitives (`cpu_808x/biu.rs`, not in scope — the
spec's §1 treats instruction execution as a consumer of "bus read/write/wait
primitives"). They act on the opaque remainder of the CPU and bus state and do
not touch the architectural registers of `Cpu`. -/
structure Biu where
  biu_write_u8 : Segment → Nat → Nat → Nat → Nat
  biu_write_u16 : Segment → Nat → Nat → Nat → Nat
  biu_read_u16 : Segment → Nat → Nat → Nat × Nat

/-- Modelled from the spec: the flag constants of `cpu_808x/mod.rs` (not in
scope) referenced by `pop_flags`: the pop mask, the always-on reserved bits,
and the trap-flag bit tested by `get_flag(Flag::Trap)`. -/
structure FlagConsts where
  FLAGS_POP_MASK : Nat
  CPU_FLAGS_RESERVED_ON : Nat
  CPU_FLAG_TRAP : Nat

/-- The registers of `Cpu` from `cpu_808x` touched by `stack.rs`, plus an
opaque `Nat` for the remaining CPU/bus state that the BIU primitives act on.
All 16-bit registers are `Nat`s; the source's `u16` wrapping arithmetic is
written out explicitly in each operation. -/
structure Cpu where
  ax : Nat
  bx : Nat
  cx : Nat
  dx : Nat
  sp : Nat
  bp : Nat
  si : Nat
  di : Nat
  cs : Nat
  ds : Nat
  ss : Nat
  es : Nat
  ip : Nat
  flags : Nat
  interrupt_inhibit : Bool
  trap_enable_delay : Nat
  trap_disable_delay : Nat
  extst : Nat

/-- `Cpu::push_u8` from `stack.rs`: SP is decremented by 2 (wrapping) even
though only one byte is written. -/
def push_u8 (biu : Biu) (c : Cpu) (data : Nat) (_flag : ReadWriteFlag) : Cpu :=
  let sp' := (c.sp + 65536 - 2) % 65536
  { c with sp := sp', extst := biu.biu_write_u8 .SS sp' data c.extst }

/-- `Cpu::push_u16` from `stack.rs`. -/
def push_u16 (biu : Biu) (c : Cpu) (data : Nat) (_flag : ReadWriteFlag) : Cpu :=
  let sp' := (c.sp + 65536 - 2) % 65536
  { c with sp := sp', extst := biu.biu_write_u16 .SS sp' data c.extst }

/-- `Cpu::pop_u16` from `stack.rs`: read at SP, then SP is incremented by 2
(wrapping). -/
def pop_u16 (biu : Biu) (c : Cpu) : Cpu × Nat :=
  let (result, e') := biu.biu_read_u16 .SS c.sp c.extst
  ({ c with extst := e', sp := (c.sp + 2) % 65536 }, result)

/-- `Cpu::push_register16` from `stack.rs`: SP is decremented first, so
`push SP` pushes the already-decremented value. -/
def push_register16 (biu : Biu) (c : Cpu) (reg : Register16)
    (_flag : ReadWriteFlag) : Cpu :=
  let c1 := { c with sp := (c.sp + 65536 - 2) % 65536 }
  let data :=
    match reg with
    | .AX => c1.ax
    | .BX => c1.bx
    | .CX => c1.cx
    | .DX => c1.dx
    | .SP => c1.sp
    | .BP => c1.bp
    | .SI => c1.si
    | .DI => c1.di
    | .CS => c1.cs
    | .DS => c1.ds
    | .SS => c1.ss
    | .ES => c1.es
    | .IP => c1.ip
  { c1 with extst := biu.biu_write_u16 .SS c1.sp data c1.extst }

/-- `Cpu::push_flags` from `stack.rs`. -/
def push_flags (biu : Biu) (c : Cpu) (_wflag : ReadWriteFlag) : Cpu :=
  let sp' := (c.sp + 65536 - 2) % 65536
  { c with sp := sp', extst := biu.biu_write_u16 .SS sp' c.flags c.extst }

/-- `Cpu::pop_flags` from `stack.rs`: the popped word is masked with
`FLAGS_POP_MASK`, the reserved always-on bits are forced on, the trap
enable/disable delays are armed on a trap-flag edge, and SP is incremented by
2 (wrapping). -/
def pop_flags (biu : Biu) (K : FlagConsts) (c : Cpu) : Cpu :=
  let (result, e') := biu.biu_read_u16 .SS c.sp c.extst
  let trap_was_set : Bool := c.flags &&& K.CPU_FLAG_TRAP != 0
  let flags' := result &&& K.FLAGS_POP_MASK ||| K.CPU_FLAGS_RESERVED_ON
  let trap_is_set : Bool := flags' &&& K.CPU_FLAG_TRAP != 0
  { c with
    extst := e',
    flags := flags',
    trap_enable_delay :=
      if !trap_was_set && trap_is_set then 2 else c.trap_enable_delay,
    trap_disable_delay :=
      if trap_was_set && !trap_is_set then 1 else c.trap_disable_delay,
    sp := (c.sp + 2) % 65536 }

/-! ## Concrete instances for witnesses and counterexamples -/

/-- A trivial card behavior (used only to instantiate universally quantified
theorems at concrete inputs). -/
def cardFns0 : CardFns :=
  { get_read_wait := fun st _ _ => (st, 0)
    get_write_wait := fun st _ _ => (st, 0)
    mmio_read_u8 := fun st _ _ => (st, 0, 0)
    mmio_read_u16 := fun st _ _ => (st, 0, 0)
    mmio_peek_u8 := fun _ _ => 0
    mmio_write_u8 := fun st _ _ _ => (st, 0)
    io_read_u8 := fun st _ _ => (st, 0)
    io_write_u8 := fun st _ _ _ => st }

/-- A trivial external-device behavior. -/
def ext0 : Ext :=
  { mda := cardFns0
    cga := cardFns0
    ega := cardFns0
    vga := cardFns0
    ppiRead := fun st _ => (st, 0)
    pitRead := fun st _ _ => (st, 0)
    dmaRead := fun st _ => (st, 0)
    picRead := fun st _ => (st, 0)
    fdcRead := fun st _ => (st, 0)
    hdcRead := fun st _ => (st, 0)
    serialRead := fun st _ => (st, 0)
    ppiWrite := fun st _ _ b => (st, b)
    pitWrite := fun st _ _ _ b => (st, b)
    dmaWrite := fun st _ _ b => (st, b)
    picWrite := fun st _ _ b => (st, b)
    fdcWrite := fun st _ _ b => (st, b)
    hdcWrite := fun st _ _ b => (st, b)
    serialWrite := fun st _ _ => st }

/-- The `BusInterface::default()` state from `bus.rs`: divisor 3, full
conventional memory, open-bus memory contents, clear flags, `Memory` in every
fast-map bucket, no devices. -/
def bus0 : Bus :=
  { cpu_factor := .Divisor 3
    conventional_size := ADDRESS_SPACE
    memory := fun _ => OPEN_BUS_BYTE
    memory_mask := fun _ => 0
    mmio_map := []
    mmio_map_fast := fun _ => .Memory
    first_map := 0xFFFFF
    last_map := 0x00000
    io_map := []
    ppi := none
    pit := none
    dma1 := none
    dma2 := none
    pic1 := none
    pic2 := none
    serial := none
    fdc := none
    hdc := none
    mouse := none
    videocards := []
    cycles_to_ticks := fun _ => 0 }

/-- A trivial BIU behavior for instantiating the CPU theorems. -/
def biu0 : Biu :=
  { biu_write_u8 := fun _ _ _ e => e
    biu_write_u16 := fun _ _ _ e => e
    biu_read_u16 := fun _ _ e => (0xFFFF, e) }

/-- Concrete flag constants for instantiating the CPU theorems (8088 values:
pop mask 0x0FD5, reserved-on bits 0xF002, trap bit 0x0100). -/
def flagConsts0 : FlagConsts :=
  { FLAGS_POP_MASK := 0x0FD5
    CPU_FLAGS_RESERVED_ON := 0xF002
    CPU_FLAG_TRAP := 0x0100 }

/-- A concrete CPU state. -/
def cpu0 : Cpu :=
  { ax := 0
    bx := 0
    cx := 0
    dx := 0
    sp := 0x1000
    bp := 0
    si := 0
    di := 0
    cs := 0xFFFF
    ds := 0
    ss := 0
    es := 0
    ip := 0
    flags := 0xF002
    interrupt_inhibit := false
    trap_enable_delay := 0
    trap_disable_delay := 0
    extst := 0 }

/-! ## Bitmask helper lemmas -/

/-- Or-ing a mask in and then and-ing with the same mask recovers the mask. -/
theorem lor_land_self (x m : Nat) : (x ||| m) &&& m = m := by
  apply Nat.eq_of_testBit_eq
  intro i
  simp only [Nat.testBit_and, Nat.testBit_or]
  cases x.testBit i <;> cases m.testBit i <;> rfl

/-- If `m` has no bit in common with `a ||| b`, it has none in common with
`a`. -/
theorem land_lor_eq_zero_left {m a b : Nat} (h : m &&& (a ||| b) = 0) :
    m &&& a = 0 := by
  apply Nat.eq_of_testBit_eq
  intro i
  have hi := congrArg (fun x => x.testBit i) h
  simp only [Nat.testBit_and, Nat.testBit_or, Nat.zero_testBit] at hi ⊢
  cases hm : m.testBit i <;> cases ha : a.testBit i <;>
    simp_all

/-- If `m` has no bit in common with `a ||| b`, it has none in common with
`b`. -/
theorem land_lor_eq_zero_right {m a b : Nat} (h : m &&& (a ||| b) = 0) :
    m &&& b = 0 := by
  apply Nat.eq_of_testBit_eq
  intro i
  have hi := congrArg (fun x => x.testBit i) h
  simp only [Nat.testBit_and, Nat.testBit_or, Nat.zero_testBit] at hi ⊢
  cases hm : m.testBit i <;> cases hb : b.testBit i <;>
    simp_all

/-! ## Claim C1 -/

/-- Claim C1: for every cycle count `c` in 0..511 and every `Divisor(n)` /
`Multiplier(n)` with `n ≥ 1` (a `u8`, so `n ≤ 255`), the rebuilt timing-table
entry for `c` has `sys_ticks = ⌈c/n⌉` under `Divisor(n)` (stated as the exact
source expression together with the two inequalities characterizing the
ceiling) and `sys_ticks = c*n` under `Multiplier(n)`, and its microseconds
field equals `c` divided by the effective MHz (`crystal/n`, resp.
`crystal*n`), with the `f64` arithmetic modelled over `ℚ`. -/
theorem claim_C1_timing_table (c n : Nat) (crystal : ℚ)
    (_hc : c < TIMING_TABLE_LEN) (hn1 : 1 ≤ n) (_hn2 : n ≤ 255) :
    ((update_timing_table (.Divisor n) crystal c).sys_ticks = (c + n - 1) / n ∧
     c ≤ n * (update_timing_table (.Divisor n) crystal c).sys_ticks ∧
     n * (update_timing_table (.Divisor n) crystal c).sys_ticks < c + n ∧
     (update_timing_table (.Divisor n) crystal c).us =
       (c : ℚ) / (crystal / (n : ℚ))) ∧
    ((update_timing_table (.Multiplier n) crystal c).sys_ticks = c * n ∧
     (update_timing_table (.Multiplier n) crystal c).us =
       (c : ℚ) / (crystal * (n : ℚ))) := by
  have hb := ceil_div_bounds c n hn1
  refine ⟨⟨rfl, hb.1, hb.2, ?_⟩, rfl, ?_⟩
  · show 1 / (crystal / (n : ℚ)) * (c : ℚ) = (c : ℚ) / (crystal / (n : ℚ))
    rw [one_div, inv_mul_eq_div]
  · show 1 / (crystal * (n : ℚ)) * (c : ℚ) = (c : ℚ) / (crystal * (n : ℚ))
    rw [one_div, inv_mul_eq_div]

/-- Witness for C1 at `c = 10`, `n = 3`, `crystal = 5`. -/
theorem claim_C1_witness :
    10 < TIMING_TABLE_LEN ∧ 1 ≤ 3 ∧ 3 ≤ 255 ∧
    (update_timing_table (ClockFactor.Divisor 3) 5 10).sys_ticks =
      (10 + 3 - 1) / 3 :=
  ⟨by decide, by decide, by decide,
   (claim_C1_timing_table 10 3 5 (by decide) (by decide) (by decide)).1.1⟩

/-! ## Claim C7 -/

/-- Claim C7: converting a wait expressed in system ticks back to CPU cycles
rounds upward under `Divisor(n)` (the result is `⌈t/n⌉`, characterized by the
two inequalities) and multiplies under `Multiplier(n)`; and the wait-query
dispatch (`get_read_wait`/`get_write_wait` through a resolved MDA card) returns
exactly `system_ticks_to_cpu_cycles` of the device's system-tick wait. -/
theorem claim_C7_wait_rounding (n t : Nat) (hn : 1 ≤ n) :
    (system_ticks_to_cpu_cycles (.Divisor n) t = (t + n - 1) / n ∧
     t ≤ n * system_ticks_to_cpu_cycles (.Divisor n) t ∧
     n * system_ticks_to_cpu_cycles (.Divisor n) t < t + n) ∧
    system_ticks_to_cpu_cycles (.Multiplier n) t = t * n ∧
    (∀ (ext : Ext) (b : Bus) (address cycles st : Nat) (vid : VideoCardId),
      address < ADDRESS_SPACE →
      b.memory_mask address &&& MEM_MMIO_BIT ≠ 0 →
      b.mmio_map_fast (address >>> MMIO_MAP_SHIFT) = .Video vid →
      lookupList b.videocards vid = some (.Mda st) →
      (get_read_wait ext b address cycles).2 =
        .ok (system_ticks_to_cpu_cycles b.cpu_factor
          (ext.mda.get_read_wait st address
            (cpu_cycles_to_system_ticks b.cpu_factor cycles)).2) ∧
      (get_write_wait ext b address cycles).2 =
        .ok (system_ticks_to_cpu_cycles b.cpu_factor
          (ext.mda.get_write_wait st address
            (cpu_cycles_to_system_ticks b.cpu_factor cycles)).2)) := by
  have hb := ceil_div_bounds t n hn
  refine ⟨⟨rfl, hb.1, hb.2⟩, rfl, ?_⟩
  intro ext b address cycles st vid h1 h2 h3 h4
  constructor
  · rcases hE : ext.mda.get_read_wait st address
        (cpu_cycles_to_system_ticks b.cpu_factor cycles) with ⟨st', sw⟩
    simp [get_read_wait, if_pos h1, h2, h3, h4, hE]
  · rcases hE : ext.mda.get_write_wait st address
        (cpu_cycles_to_system_ticks b.cpu_factor cycles) with ⟨st', sw⟩
    simp [get_write_wait, if_pos h1, h2, h3, h4, hE]

/-- Witness for C7 at `n = 3`, `t = 7`. -/
theorem claim_C7_witness :
    1 ≤ 3 ∧ system_ticks_to_cpu_cycles (ClockFactor.Divisor 3) 7 = (7 + 3 - 1) / 3 :=
  ⟨by decide, (claim_C7_wait_rounding 3 7 (by decide)).1.1⟩

/-! ## Claim C9 -/

/-- `pop_u16` increments SP by 2 with wrapping. -/
theorem pop_u16_sp (biu : Biu) (c : Cpu) :
    (pop_u16 biu c).1.sp = (c.sp + 2) % 65536 := by
  unfold pop_u16
  rcases biu.biu_read_u16 .SS c.sp c.extst with ⟨r, e'⟩
  rfl

/-- Claim C9: every stack push (`push_u8`, `push_u16`, `push_flags`,
`push_register16`) decrements the 16-bit SP by exactly 2 with wrapping
arithmetic — including `push_u8`, which writes one byte — and `pop_u16`
increments SP by exactly 2 after reading, so `push_u16` followed by `pop_u16`
restores SP. Stated over every BIU behavior; `c.sp < 65536` is the `u16`
register invariant. -/
theorem claim_C9_stack_sp (biu : Biu) (c : Cpu) (d8 d16 : Nat)
    (f : ReadWriteFlag) (reg : Register16) (hsp : c.sp < 65536) :
    ((push_u8 biu c d8 f).sp + 2) % 65536 = c.sp ∧
    ((push_u16 biu c d16 f).sp + 2) % 65536 = c.sp ∧
    ((push_flags biu c f).sp + 2) % 65536 = c.sp ∧
    ((push_register16 biu c reg f).sp + 2) % 65536 = c.sp ∧
    (2 ≤ c.sp → (push_u16 biu c d16 f).sp = c.sp - 2) ∧
    (pop_u16 biu c).1.sp = (c.sp + 2) % 65536 ∧
    (pop_u16 biu (push_u16 biu c d16 f)).1.sp = c.sp := by
  have h8 : (push_u8 biu c d8 f).sp = (c.sp + 65536 - 2) % 65536 := rfl
  have h16 : (push_u16 biu c d16 f).sp = (c.sp + 65536 - 2) % 65536 := rfl
  have hf : (push_flags biu c f).sp = (c.sp + 65536 - 2) % 65536 := rfl
  have hr : (push_register16 biu c reg f).sp = (c.sp + 65536 - 2) % 65536 := rfl
  have hp := pop_u16_sp biu c
  have hp2 := pop_u16_sp biu (push_u16 biu c d16 f)
  rw [h16] at hp2
  refine ⟨?_, ?_, ?_, ?_, ?_, hp, ?_⟩
  · rw [h8]; omega
  · rw [h16]; omega
  · rw [hf]; omega
  · rw [hr]; omega
  · intro h2; rw [h16]; omega
  · rw [hp2]; omega

/-- Witness for C9 at a concrete CPU state with `SP = 0x1000`. -/
theorem claim_C9_witness :
    cpu0.sp < 65536 ∧
    (pop_u16 biu0 (push_u16 biu0 cpu0 0xBEEF ReadWriteFlag.Normal)).1.sp =
      cpu0.sp :=
  ⟨by decide,
   (claim_C9_stack_sp biu0 cpu0 0x12 0xBEEF ReadWriteFlag.Normal
     Register16.AX (by decide)).2.2.2.2.2.2⟩

/-! ## Claim C10 -/

/-- Claim C10: after every `pop_flags`, regardless of the popped word, the
flags register equals `(popped AND FLAGS_POP_MASK) OR CPU_FLAGS_RESERVED_ON`;
consequently the reserved always-on bits are set and every bit outside both
constants is clear. Stated over every BIU behavior and every value of the
(out-of-scope) flag constants. -/
theorem claim_C10_pop_flags (biu : Biu) (K : FlagConsts) (c : Cpu) :
    (pop_flags biu K c).flags =
      (biu.biu_read_u16 .SS c.sp c.extst).1 &&& K.FLAGS_POP_MASK |||
        K.CPU_FLAGS_RESERVED_ON ∧
    (pop_flags biu K c).flags &&& K.CPU_FLAGS_RESERVED_ON =
      K.CPU_FLAGS_RESERVED_ON ∧
    (∀ j, K.FLAGS_POP_MASK.testBit j = false →
      K.CPU_FLAGS_RESERVED_ON.testBit j = false →
      (pop_flags biu K c).flags.testBit j = false) := by
  rcases hE : biu.biu_read_u16 .SS c.sp c.extst with ⟨r, e'⟩
  refine ⟨?_, ?_, ?_⟩
  · simp [pop_flags, hE]
  · simp [pop_flags, hE, lor_land_self]
  · intro j hm ho
    simp [pop_flags, hE, Nat.testBit_or, Nat.testBit_and, hm, ho]

/-- Witness for C10 at concrete 8088 flag constants, checking that a bit
outside both constants (bit 5) ends up clear. -/
theorem claim_C10_witness :
    (pop_flags biu0 flagConsts0 cpu0).flags.testBit 5 = false :=
  (claim_C10_pop_flags biu0 flagConsts0 cpu0).2.2 5 (by decide) (by decide)

/-! ## Claim C5 -/

/-- Claim C5: for every 16-bit port not present in the I/O map, `io_read_u8`
returns `0xFF` with the bus (and so every installed device's state) untouched,
and `io_write_u8` is a no-op on the whole bus state — for every possible
device behavior. -/
theorem claim_C5_unmapped_port (ext : Ext) (b : Bus) (port data cycles : Nat)
    (h : lookupList b.io_map port = none) :
    io_read_u8 ext b port cycles = some (b, NO_IO_BYTE) ∧
    io_write_u8 ext b port data cycles = b := by
  constructor
  · simp [io_read_u8, h]
  · simp [io_write_u8, h]

/-- Witness for C5 at the spec's example port `0x0278` on the default bus. -/
theorem claim_C5_witness :
    lookupList bus0.io_map 0x278 = none ∧
    io_read_u8 ext0 bus0 0x278 4 = some (bus0, NO_IO_BYTE) ∧
    io_write_u8 ext0 bus0 0x278 0xAA 4 = bus0 :=
  ⟨rfl, (claim_C5_unmapped_port ext0 bus0 0x278 0xAA 4 rfl).1,
   (claim_C5_unmapped_port ext0 bus0 0x278 0xAA 4 rfl).2⟩

/-! ## Claim C6 -/

/-- Claim C6: for a descriptor within the address space, `register_map` panics
(fails fast, modelled `none`) exactly when the size is not a multiple of the
8 KiB fast-map bucket size, and on success the MMIO flag bit is set on every
address in `[address, address + size)`. -/
theorem claim_C6_register_map (b : Bus) (dev : MmioDeviceType)
    (k : MemRangeDescriptor) (hbound : k.address + k.size ≤ ADDRESS_SPACE) :
    (register_map b dev k = none ↔ k.size % MMIO_MAP_SIZE ≠ 0) ∧
    (∀ b', register_map b dev k = some b' →
      ∀ a, k.address ≤ a → a < k.address + k.size →
        b'.memory_mask a &&& MEM_MMIO_BIT ≠ 0) := by
  unfold register_map
  rw [if_neg (by omega)]
  by_cases hsz : k.size % MMIO_MAP_SIZE = 0
  · rw [if_neg (by simp [hsz])]
    refine ⟨by simp [hsz], ?_⟩
    intro b' hb' a ha1 ha2
    have hb'' : b'.memory_mask a =
        if k.address ≤ a ∧ a < k.address + k.size then
          b.memory_mask a ||| MEM_MMIO_BIT
        else b.memory_mask a := by
      rw [← Option.some_inj.mp hb']
    rw [hb'', if_pos ⟨ha1, ha2⟩, lor_land_self]
    decide
  · rw [if_pos hsz]
    refine ⟨by simp [hsz], ?_⟩
    intro b' hb'
    exact absurd hb' (by simp)

/-- A successful registration of a 16 KiB range at the CGA aperture. -/
def descC6 : MemRangeDescriptor :=
  { address := 0xA0000, size := 0x4000, cycle_cost := 0, read_only := false }

/-- The bus after registering `descC6` on the default bus. -/
def busC6 : Bus := (register_map bus0 MmioDeviceType.Cga descC6).getD bus0

/-- Witness for C6: after the concrete registration, the MMIO flag is set at
the first address of the range. -/
theorem claim_C6_witness :
    busC6.memory_mask 0xA0000 &&& MEM_MMIO_BIT ≠ 0 :=
  (claim_C6_register_map bus0 MmioDeviceType.Cga descC6 (by decide)).2
    busC6 rfl 0xA0000 (by decide) (by decide)

/-! ## Claim C2 -/

/-- A bus whose address 0 is MMIO-flagged while its fast-map bucket still
holds the default `MmioDeviceType::Memory` (no device) and no video card is
installed. -/
def busC2 : Bus :=
  { bus0 with memory_mask := fun i => if i = 0 then MEM_MMIO_BIT else 0 }

/-- Counterexample to C2 as stated: at address 0 of `busC2` the MMIO flag is
set and the bucket names no device (`Memory`), yet `read_u8` returns the hard
`MmioError` instead of the raw memory byte `Ok((0xFF, 0))` the claim
predicts. -/
theorem claim_C2_counterexample :
    busC2.memory_mask 0 &&& MEM_MMIO_BIT ≠ 0 ∧
    busC2.mmio_map_fast (0 >>> MMIO_MAP_SHIFT) = MmioDeviceType.Memory ∧
    (read_u8 ext0 busC2 0 4).2 = Except.error MemError.MmioError :=
  ⟨by decide, rfl, rfl⟩

/-- The fast-map bucket of `address` resolves to no live video card: the
bucket names no device at all, or names a video card absent from the registry
(or present only as `VideoCardDispatch::None`). -/
def bucket_unresolved (b : Bus) (address : Nat) : Prop :=
  match b.mmio_map_fast (address >>> MMIO_MAP_SHIFT) with
  | .Video vid =>
      lookupList b.videocards vid = none ∨
      lookupList b.videocards vid = some VideoCardDispatch.None
  | _ => True

/-- Claim C2 amended: for every in-bounds MMIO-flagged address whose bucket
resolves to no live device, `read_u8` returns the hard `MmioError` (never the
raw-memory fallback); the silent raw-memory/default-wait fallback exists only
on the wait-query path (`get_read_wait`). -/
theorem claim_C2_amended (ext : Ext) (b : Bus) (address cycles : Nat)
    (h : address < ADDRESS_SPACE)
    (hm : b.memory_mask address &&& MEM_MMIO_BIT ≠ 0)
    (hu : bucket_unresolved b address) :
    (read_u8 ext b address cycles).2 = Except.error MemError.MmioError ∧
    (get_read_wait ext b address cycles).2 = Except.ok DEFAULT_WAIT_STATES := by
  unfold bucket_unresolved at hu
  rcases hb : b.mmio_map_fast (address >>> MMIO_MAP_SHIFT) with
    _ | _ | vid | _ | _ | _ | _
  case Video =>
    rw [hb] at hu
    rcases hu with hl | hl <;>
      exact ⟨by simp [read_u8, h, hm, hb, hl],
             by simp [get_read_wait, h, hm, hb, hl]⟩
  all_goals exact ⟨by simp [read_u8, h, hm, hb],
                   by simp [get_read_wait, h, hm, hb]⟩

/-- Witness for the amended C2 on the concrete `busC2`. -/
theorem claim_C2_amended_witness :
    (read_u8 ext0 busC2 0 4).2 = Except.error MemError.MmioError ∧
    (get_read_wait ext0 busC2 0 4).2 = Except.ok DEFAULT_WAIT_STATES :=
  claim_C2_amended ext0 busC2 0 4 (by decide) (by decide) trivial

/-! ## Claim C3 -/

/-- A bucket-aligned 8 KiB descriptor at the CGA aperture. -/
def descC3 : MemRangeDescriptor :=
  { address := 0xB8000, size := 0x2000, cycle_cost := 0, read_only := false }

/-- First-registered video card identity. -/
def vidA : VideoCardId := { idx := 0, card_type := 0 }

/-- Second-registered video card identity. -/
def vidB : VideoCardId := { idx := 1, card_type := 0 }

/-- Counterexample to C3 as stated: registering `vidA` then `vidB` over the
same bucket leaves the fast map resolving to the *second* (last-registered)
device, not the first as the claim predicts. -/
theorem claim_C3_counterexample :
    Option.map (fun bb => bb.mmio_map_fast (0xB8000 >>> MMIO_MAP_SHIFT))
      ((register_map bus0 (MmioDeviceType.Video vidA) descC3).bind
        (fun b1 => register_map b1 (MmioDeviceType.Video vidB) descC3)) =
      some (MmioDeviceType.Video vidB) ∧
    MmioDeviceType.Video vidB ≠ MmioDeviceType.Video vidA :=
  ⟨rfl, by decide⟩

/-- `register_map` on a descriptor past the address space panics. -/
theorem register_map_oob_none (b : Bus) (dev : MmioDeviceType)
    (k : MemRangeDescriptor) (h : k.address + k.size > ADDRESS_SPACE) :
    register_map b dev k = none := by
  unfold register_map
  rw [if_pos h]

/-- `register_map` on a size that is not a bucket multiple panics. -/
theorem register_map_size_none (b : Bus) (dev : MmioDeviceType)
    (k : MemRangeDescriptor) (h : k.size % MMIO_MAP_SIZE ≠ 0) :
    register_map b dev k = none := by
  unfold register_map
  by_cases h2 : k.address + k.size > ADDRESS_SPACE
  · rw [if_pos h2]
  · rw [if_neg h2, if_pos h]

/-- The successful case of `register_map`, written out explicitly. -/
theorem register_map_some (b : Bus) (dev : MmioDeviceType)
    (k : MemRangeDescriptor) (h1 : ¬k.address + k.size > ADDRESS_SPACE)
    (h2 : ¬k.size % MMIO_MAP_SIZE ≠ 0) :
    register_map b dev k = some { b with
      first_map := if k.address < b.first_map then k.address else b.first_map,
      last_map :=
        if k.address + k.size > b.last_map then k.address + k.size
        else b.last_map,
      memory_mask := fun i =>
        if k.address ≤ i ∧ i < k.address + k.size then
          b.memory_mask i ||| MEM_MMIO_BIT
        else b.memory_mask i,
      mmio_map_fast := fun j =>
        if k.address >>> MMIO_MAP_SHIFT ≤ j ∧
            j < k.address >>> MMIO_MAP_SHIFT + k.size / MMIO_MAP_SIZE then dev
        else b.mmio_map_fast j,
      mmio_map := b.mmio_map ++ [(k, dev)] } := by
  unfold register_map
  rw [if_neg h1, if_neg h2]

/-- Claim C3 amended: when two successful `register_map` calls cover the same
fast-map bucket, the coarse fast map resolves that bucket to the
*last-registered* device; the authoritative `mmio_map` list keeps both
registrations in first-registered-first order. -/
theorem claim_C3_amended (b b1 b2 : Bus) (d1 d2 : MmioDeviceType)
    (k1 k2 : MemRangeDescriptor) (j : Nat)
    (h1 : register_map b d1 k1 = some b1)
    (h2 : register_map b1 d2 k2 = some b2)
    (hj1 : k2.address >>> MMIO_MAP_SHIFT ≤ j)
    (hj2 : j < k2.address >>> MMIO_MAP_SHIFT + k2.size / MMIO_MAP_SIZE) :
    b2.mmio_map_fast j = d2 ∧
    b2.mmio_map = b.mmio_map ++ [(k1, d1), (k2, d2)] := by
  have hA1 : ¬k1.address + k1.size > ADDRESS_SPACE := by
    intro hgt
    rw [register_map_oob_none b d1 k1 hgt] at h1
    exact Option.noConfusion h1
  have hS1 : ¬k1.size % MMIO_MAP_SIZE ≠ 0 := by
    intro hne
    rw [register_map_size_none b d1 k1 hne] at h1
    exact Option.noConfusion h1
  have hA2 : ¬k2.address + k2.size > ADDRESS_SPACE := by
    intro hgt
    rw [register_map_oob_none b1 d2 k2 hgt] at h2
    exact Option.noConfusion h2
  have hS2 : ¬k2.size % MMIO_MAP_SIZE ≠ 0 := by
    intro hne
    rw [register_map_size_none b1 d2 k2 hne] at h2
    exact Option.noConfusion h2
  rw [register_map_some b d1 k1 hA1 hS1] at h1
  rw [register_map_some b1 d2 k2 hA2 hS2] at h2
  have hb1 := Option.some_inj.mp h1
  have hb2 := Option.some_inj.mp h2
  subst hb1
  subst hb2
  constructor
  · show (if k2.address >>> MMIO_MAP_SHIFT ≤ j ∧
        j < k2.address >>> MMIO_MAP_SHIFT + k2.size / MMIO_MAP_SIZE then d2
      else _) = d2
    rw [if_pos ⟨hj1, hj2⟩]
  · show (b.mmio_map ++ [(k1, d1)]) ++ [(k2, d2)] =
      b.mmio_map ++ [(k1, d1), (k2, d2)]
    rw [List.append_assoc]
    rfl

/-- The bus after the first registration of `descC3`. -/
def busC3a : Bus :=
  (register_map bus0 (MmioDeviceType.Video vidA) descC3).getD bus0

/-- The bus after the second, overlapping registration of `descC3`. -/
def busC3b : Bus :=
  (register_map busC3a (MmioDeviceType.Video vidB) descC3).getD bus0

/-- Witness for the amended C3 on the concrete overlapping registrations. -/
theorem claim_C3_amended_witness :
    busC3b.mmio_map_fast 92 = MmioDeviceType.Video vidB ∧
    busC3b.mmio_map = bus0.mmio_map ++ [(descC3, MmioDeviceType.Video vidA),
      (descC3, MmioDeviceType.Video vidB)] :=
  claim_C3_amended bus0 busC3a busC3b (MmioDeviceType.Video vidA)
    (MmioDeviceType.Video vidB) descC3 descC3 92 rfl rfl (by decide) (by decide)

/-! ## Claim C4 -/

/-- Any `write_u8` that does not take the raw-RAM-write path (flags set, or at
or past conventional memory) returns `Ok` and leaves `memory` and
`memory_mask` untouched. -/
theorem write_u8_discard (ext : Ext) (b : Bus) (address data cycles : Nat)
    (h8 : address < ADDRESS_SPACE)
    (hd : b.memory_mask address &&& (MEM_MMIO_BIT ||| MEM_ROM_BIT) ≠ 0 ∨
          b.conventional_size ≤ address) :
    (write_u8 ext b address data cycles).2.isOk = true ∧
    (write_u8 ext b address data cycles).1.memory = b.memory ∧
    (write_u8 ext b address data cycles).1.memory_mask = b.memory_mask := by
  unfold write_u8
  rw [if_pos h8]
  by_cases hm : b.memory_mask address &&& (MEM_MMIO_BIT ||| MEM_ROM_BIT) = 0
  · rw [if_pos hm]
    rcases hd with hd | hd
    · exact absurd hm hd
    · rw [if_neg (Nat.not_lt.mpr hd)]
      exact ⟨rfl, rfl, rfl⟩
  · rw [if_neg hm]
    split
    · split <;> exact ⟨rfl, rfl, rfl⟩
    · exact ⟨rfl, rfl, rfl⟩

/-- Any `write_u16` that does not take the raw-RAM-write path returns `Ok` and
leaves `memory` and `memory_mask` untouched. -/
theorem write_u16_discard (ext : Ext) (b : Bus) (address data cycles : Nat)
    (h16 : address < ADDRESS_SPACE - 1)
    (hd : b.memory_mask address &&& (MEM_MMIO_BIT ||| MEM_ROM_BIT) ≠ 0 ∨
          b.conventional_size ≤ address) :
    (write_u16 ext b address data cycles).2.isOk = true ∧
    (write_u16 ext b address data cycles).1.memory = b.memory ∧
    (write_u16 ext b address data cycles).1.memory_mask = b.memory_mask := by
  unfold write_u16
  rw [if_pos h16]
  by_cases hm : b.memory_mask address &&& (MEM_MMIO_BIT ||| MEM_ROM_BIT) = 0
  · rw [if_pos hm]
    rcases hd with hd | hd
    · exact absurd hm hd
    · have hc1 : ¬address < b.conventional_size - 1 :=
        Nat.not_lt.mpr (Nat.le_trans (Nat.sub_le _ _) hd)
      have hc2 : ¬address < b.conventional_size := Nat.not_lt.mpr hd
      rw [if_neg hc1, if_neg hc2]
      exact ⟨rfl, rfl, rfl⟩
  · rw [if_neg hm]
    split
    · split <;> exact ⟨rfl, rfl, rfl⟩
    · exact ⟨rfl, rfl, rfl⟩

/-- Claim C4: for every in-bounds address that is ROM-flagged (and not
MMIO-flagged) or at/beyond the configured conventional memory size, `write_u8`
and `write_u16` return `Ok` (a defined no-op, never an error) and leave the
memory array byte-for-byte unchanged, so a subsequent (non-MMIO) read returns
the pre-write value. `0 < conventional_size` reflects that the source computes
`conventional_size - 1` in `usize`, and `cycles < 256` is the domain of the
source's 256-entry `cycles_to_ticks` table indexed on the MMIO dispatch
path. -/
theorem claim_C4_discarded_writes (ext : Ext) (b : Bus)
    (address data data16 cycles : Nat)
    (_hconv : 0 < b.conventional_size)
    (_hcycles : cycles < 256)
    (h8 : address < ADDRESS_SPACE)
    (hcase : (b.memory_mask address &&& MEM_ROM_BIT ≠ 0 ∧
              b.memory_mask address &&& MEM_MMIO_BIT = 0) ∨
             b.conventional_size ≤ address) :
    ((write_u8 ext b address data cycles).2.isOk = true ∧
     (∀ i, (write_u8 ext b address data cycles).1.memory i = b.memory i) ∧
     (b.memory_mask address &&& MEM_MMIO_BIT = 0 →
       (read_u8 ext (write_u8 ext b address data cycles).1 address cycles).2 =
         Except.ok (b.memory address, 0))) ∧
    (address < ADDRESS_SPACE - 1 →
      ((write_u16 ext b address data16 cycles).2.isOk = true ∧
       ∀ i, (write_u16 ext b address data16 cycles).1.memory i = b.memory i)) := by
  have hd : b.memory_mask address &&& (MEM_MMIO_BIT ||| MEM_ROM_BIT) ≠ 0 ∨
      b.conventional_size ≤ address :=
    hcase.imp (fun hrom h0 => hrom.1 (land_lor_eq_zero_right h0)) id
  obtain ⟨hok, hmem, hmask⟩ := write_u8_discard ext b address data cycles h8 hd
  refine ⟨⟨hok, fun i => congrFun hmem i, ?_⟩, ?_⟩
  · intro hmm0
    unfold read_u8
    rw [if_pos h8, hmask, if_pos hmm0, hmem]
  · intro h16
    obtain ⟨hok16, hmem16, _⟩ := write_u16_discard ext b address data16 cycles h16 hd
    exact ⟨hok16, fun i => congrFun hmem16 i⟩

/-- A bus with a ROM-flagged byte at `0x8000`. -/
def busC4 : Bus :=
  { bus0 with memory_mask := fun i => if i = 0x8000 then MEM_ROM_BIT else 0 }

/-- Witness for C4 on the concrete ROM-flagged address `0x8000`. -/
theorem claim_C4_witness :
    (write_u8 ext0 busC4 0x8000 0x12 4).2.isOk = true ∧
    (write_u8 ext0 busC4 0x8000 0x12 4).1.memory 0x8000 = busC4.memory 0x8000 ∧
    (read_u8 ext0 (write_u8 ext0 busC4 0x8000 0x12 4).1 0x8000 4).2 =
      Except.ok (busC4.memory 0x8000, 0) :=
  have h := claim_C4_discarded_writes ext0 busC4 0x8000 0x12 0x3456 4
    (by decide) (by decide) (by decide) (Or.inl ⟨by decide, by decide⟩)
  ⟨h.1.1, h.1.2.1 0x8000, h.1.2.2 (by decide)⟩

/-! ## Claim C8 -/

/-- In bounds, `read_u8` never returns the out-of-bounds error (it returns
`Ok` or the distinct `MmioError`). -/
theorem read_u8_not_oob (ext : Ext) (b : Bus) (address cycles : Nat)
    (h : address < ADDRESS_SPACE) :
    (read_u8 ext b address cycles).2 ≠
      Except.error MemError.ReadOutOfBoundsError := by
  unfold read_u8
  rw [if_pos h]
  by_cases hm : b.memory_mask address &&& MEM_MMIO_BIT = 0
  · rw [if_pos hm]
    exact fun hc => Except.noConfusion hc
  · rw [if_neg hm]
    split
    · split
      all_goals first
        | exact fun hc => Except.noConfusion hc
        | simp
    · simp

/-- In bounds, `peek_u8` never returns the out-of-bounds error. -/
theorem peek_u8_not_oob (ext : Ext) (b : Bus) (address : Nat)
    (h : address < ADDRESS_SPACE) :
    peek_u8 ext b address ≠ Except.error MemError.ReadOutOfBoundsError := by
  unfold peek_u8
  rw [if_pos h]
  by_cases hm : b.memory_mask address &&& MEM_MMIO_BIT = 0
  · rw [if_pos hm]
    exact fun hc => Except.noConfusion hc
  · rw [if_neg hm]
    split
    · split
      all_goals first
        | exact fun hc => Except.noConfusion hc
        | simp
    · simp

/-- In bounds, `write_u8` never returns an error at all. -/
theorem write_u8_not_oob (ext : Ext) (b : Bus) (address data cycles : Nat)
    (h : address < ADDRESS_SPACE) :
    (write_u8 ext b address data cycles).2 ≠
      Except.error MemError.ReadOutOfBoundsError := by
  unfold write_u8
  rw [if_pos h]
  by_cases hm : b.memory_mask address &&& (MEM_MMIO_BIT ||| MEM_ROM_BIT) = 0
  · rw [if_pos hm]
    split <;> exact fun hc => Except.noConfusion hc
  · rw [if_neg hm]
    split
    · split
      all_goals exact fun hc => Except.noConfusion hc
    · exact fun hc => Except.noConfusion hc

/-- In bounds, `read_u16` never returns the out-of-bounds error. -/
theorem read_u16_not_oob (ext : Ext) (b : Bus) (address cycles : Nat)
    (h : address < ADDRESS_SPACE - 1) :
    (read_u16 ext b address cycles).2 ≠
      Except.error MemError.ReadOutOfBoundsError := by
  unfold read_u16
  rw [if_pos h]
  by_cases hm : b.memory_mask address &&& MEM_MMIO_BIT = 0
  · rw [if_pos hm]
    exact fun hc => Except.noConfusion hc
  · rw [if_neg hm]
    split
    · split
      all_goals first
        | exact fun hc => Except.noConfusion hc
        | simp
    · simp

/-- In bounds, `write_u16` never returns an error at all. -/
theorem write_u16_not_oob (ext : Ext) (b : Bus) (address data cycles : Nat)
    (h : address < ADDRESS_SPACE - 1) :
    (write_u16 ext b address data cycles).2 ≠
      Except.error MemError.ReadOutOfBoundsError := by
  unfold write_u16
  rw [if_pos h]
  by_cases hm : b.memory_mask address &&& (MEM_MMIO_BIT ||| MEM_ROM_BIT) = 0
  · rw [if_pos hm]
    split
    · exact fun hc => Except.noConfusion hc
    · split <;> exact fun hc => Except.noConfusion hc
  · rw [if_neg hm]
    split
    · split
      all_goals exact fun hc => Except.noConfusion hc
    · exact fun hc => Except.noConfusion hc

/-- Claim C8: every memory operation surfaces an explicit out-of-bounds error
exactly on out-of-bounds input and never silently clamps: `read_u8`, `peek_u8`
and `write_u8` return the out-of-bounds error precisely when
`address ≥ 0x100000`, and `read_u16`/`write_u16` precisely when
`address + 1 ≥ 0x100000`. (In bounds, `read_u8`/`peek_u8`/`read_u16` may fail
with the distinct `MmioError` — see C2 — so "fail" here is the out-of-bounds
failure the claim's own framing names. `cycles < 256` is the domain of the
source's 256-entry `cycles_to_ticks` table used on the 16-bit MMIO dispatch
path.) -/
theorem claim_C8_out_of_bounds (ext : Ext) (b : Bus)
    (address data data16 cycles : Nat) (_hcycles : cycles < 256) :
    (((read_u8 ext b address cycles).2 =
        Except.error MemError.ReadOutOfBoundsError) ↔
      ADDRESS_SPACE ≤ address) ∧
    ((peek_u8 ext b address = Except.error MemError.ReadOutOfBoundsError) ↔
      ADDRESS_SPACE ≤ address) ∧
    (((write_u8 ext b address data cycles).2 =
        Except.error MemError.ReadOutOfBoundsError) ↔
      ADDRESS_SPACE ≤ address) ∧
    (((read_u16 ext b address cycles).2 =
        Except.error MemError.ReadOutOfBoundsError) ↔
      ADDRESS_SPACE ≤ address + 1) ∧
    (((write_u16 ext b address data16 cycles).2 =
        Except.error MemError.ReadOutOfBoundsError) ↔
      ADDRESS_SPACE ≤ address + 1) := by
  refine ⟨⟨?_, ?_⟩, ⟨?_, ?_⟩, ⟨?_, ?_⟩, ⟨?_, ?_⟩, ⟨?_, ?_⟩⟩
  · intro hc
    by_contra hlt
    exact read_u8_not_oob ext b address cycles (by omega) hc
  · intro hge
    unfold read_u8
    rw [if_neg (by omega)]
  · intro hc
    by_contra hlt
    exact peek_u8_not_oob ext b address (by omega) hc
  · intro hge
    unfold peek_u8
    rw [if_neg (by omega)]
  · intro hc
    by_contra hlt
    exact write_u8_not_oob ext b address data cycles (by omega) hc
  · intro hge
    unfold write_u8
    rw [if_neg (by omega)]
  · intro hc
    by_contra hlt
    exact read_u16_not_oob ext b address cycles (by omega) hc
  · intro hge
    unfold read_u16
    rw [if_neg (by omega)]
  · intro hc
    by_contra hlt
    exact write_u16_not_oob ext b address data16 cycles (by omega) hc
  · intro hge
    unfold write_u16
    rw [if_neg (by omega)]

/-- Witness for C8 at the first out-of-bounds address `0x100000` and at the
16-bit boundary address `0xFFFFF`. -/
theorem claim_C8_witness :
    (read_u8 ext0 bus0 0x100000 4).2 =
      Except.error MemError.ReadOutOfBoundsError ∧
    (write_u16 ext0 bus0 0xFFFFF 0x1234 4).2 =
      Except.error MemError.ReadOutOfBoundsError :=
  ⟨(claim_C8_out_of_bounds ext0 bus0 0x100000 0 0 4 (by decide)).1.mpr
      (by decide),
   (claim_C8_out_of_bounds ext0 bus0 0xFFFFF 0 0x1234 4 (by decide)).2.2.2.2.mpr
      (by decide)⟩

end MartyPC
